import Mathlib

/-!
Shallow embedding of `Fonts/UI/build_cpp.py`: compiler detection
(`CompilerDetector`), build command construction (`CppBuilder`), the
fallback build orchestrator (`CppBuilder.build_with_best_compiler`) and
the command line driver (`main`).  Host interaction (`shutil.which`,
`subprocess.run`, `os.path.exists`) is modelled as an explicit host
state, and `subprocess.run` on a compile command as an oracle from the
invocation to its outcome.
-/

/-- Outcome of one `subprocess.run` call: either the call raised (a
timeout or any other exception, with its message) or the child process
completed with an exit code and captured output streams. -/
inductive RunOutcome where
  | exn (msg : String)
  | completed (returncode : Int) (stdout stderr : String)
deriving DecidableEq

/-- Host state read by the script: `platform.system().lower()`,
`shutil.which`, `subprocess.run` keyed by the argument list (used for
the five second version probes), and `os.path.exists`. -/
structure HostState where
  system : String
  which : String → Option String
  run : List String → RunOutcome
  pathExists : String → Bool

/-- One detected compiler: the dict built by the `CompilerDetector`
probes, with the `name`, `command`, `version`, `type`, `priority` and
`path` keys, plus the optional `setup` key that only the Visual Studio
install-path probe sets. -/
structure Compiler where
  name : String
  command : String
  version : String
  type : String
  priority : Nat
  path : String
  setup : Option String := none
deriving DecidableEq

/-- Python `result.stdout.split('\n')[0] if result.stdout else
"Unknown"`: the first line of the captured output, or `"Unknown"` when
the output is empty. -/
def firstLineOrUnknown (stdout : String) : String :=
  if stdout = "" then "Unknown"
  else String.mk (stdout.data.takeWhile (fun c => c ≠ '\n'))

/-- Regex atom `\d+`: the longest run of leading digits, `none` when
there is no leading digit. -/
def takeDigits (cs : List Char) : Option (List Char × List Char) :=
  let ds := cs.takeWhile Char.isDigit
  if ds.isEmpty then none else some (ds, cs.drop ds.length)

/-- Match the regex group `\d+\.\d+\.\d+` at the head of `cs`. -/
def versionGroup (cs : List Char) : Option String := do
  let (d1, r1) ← takeDigits cs
  match r1 with
  | '.' :: r2 =>
    let (d2, r3) ← takeDigits r2
    match r3 with
    | '.' :: r4 =>
      let (d3, _) ← takeDigits r4
      some (String.mk (d1 ++ '.' :: (d2 ++ '.' :: d3)))
    | _ => none
  | _ => none

/-- Drop the literal `lit` from the head of `cs`, `none` when `cs` does
not start with it. -/
def dropLit : List Char → List Char → Option (List Char)
  | [], cs => some cs
  | _ :: _, [] => none
  | l :: ls, c :: cs => if c = l then dropLit ls cs else none

/-- Leftmost match of `Version (\d+\.\d+\.\d+)`, as `re.search` finds
it: try every position from the left, at each position require the
literal `Version ` followed by the version group. -/
def searchVersion : List Char → Option String
  | [] => none
  | c :: cs =>
    match dropLit ("Version ".data) (c :: cs) with
    | some rest =>
      match versionGroup rest with
      | some v => some v
      | none => searchVersion cs
    | none => searchVersion cs

/-- `CompilerDetector._extract_vs_version`: search the banner for
`Version (\d+\.\d+\.\d+)` and return the group, else `"Unknown"`. -/
def extract_vs_version (vs_output : String) : String :=
  match searchVersion vs_output.data with
  | some v => v
  | none => "Unknown"

/-- The fixed list of well known Visual Studio install locations checked
by `_detect_visual_studio`. -/
def vs_paths : List String :=
  ["C:\\Program Files\\Microsoft Visual Studio\\2022\\Community\\VC\\Auxiliary\\Build\\vcvars64.bat",
   "C:\\Program Files\\Microsoft Visual Studio\\2022\\Professional\\VC\\Auxiliary\\Build\\vcvars64.bat",
   "C:\\Program Files\\Microsoft Visual Studio\\2022\\Enterprise\\VC\\Auxiliary\\Build\\vcvars64.bat",
   "C:\\Program Files (x86)\\Microsoft Visual Studio\\2019\\Community\\VC\\Auxiliary\\Build\\vcvars64.bat"]

/-- The `shutil.which("cl")` half of `_detect_visual_studio`: probe `cl`
on the search path and query its banner by running it bare.  The source
appends a descriptor only when `returncode == 0` (version extracted from
the diagnostic stream) or when the invocation raised (version
`"Unknown"`); a completed invocation with a non-zero exit code appends
nothing. -/
def vs_from_path (h : HostState) : List Compiler :=
  match h.which "cl" with
  | none => []
  | some cl_path =>
    match h.run ["cl"] with
    | .completed rc _ stderr =>
      if rc = 0 then
        [{ name := "Visual Studio C++", command := "cl",
           version := extract_vs_version stderr, type := "msvc",
           priority := 1, path := cl_path }]
      else []
    | .exn _ =>
      [{ name := "Visual Studio C++", command := "cl", version := "Unknown",
         type := "msvc", priority := 1, path := cl_path }]

/-- The install-path half of `_detect_visual_studio`: the first existing
path in `vs_paths` yields exactly one descriptor carrying the `setup`
key (the loop breaks at the first hit). -/
def vs_from_install (h : HostState) : List Compiler :=
  match vs_paths.find? h.pathExists with
  | some p =>
    [{ name := "Visual Studio C++", command := "cl", version := "2022",
       type := "msvc", priority := 1, path := p, setup := some p }]
  | none => []

/-- `CompilerDetector._detect_visual_studio`: the search-path part
followed by the install-path part. -/
def detect_visual_studio (h : HostState) : List Compiler :=
  vs_from_path h ++ vs_from_install h

/-- `CompilerDetector._detect_mingw`: requires both `gcc` and `g++` on
the search path; records the `g++` path. -/
def detect_mingw (h : HostState) : Option Compiler :=
  match h.which "gcc", h.which "g++" with
  | some _, some gxx_path =>
    match h.run ["g++", "--version"] with
    | .completed _ stdout _ =>
      some { name := "MinGW/GCC", command := "g++",
             version := firstLineOrUnknown stdout, type := "gcc",
             priority := 2, path := gxx_path }
    | .exn _ =>
      some { name := "MinGW/GCC", command := "g++", version := "Unknown",
             type := "gcc", priority := 2, path := gxx_path }
  | _, _ => none

/-- `CompilerDetector._detect_clang_windows`. -/
def detect_clang_windows (h : HostState) : Option Compiler :=
  match h.which "clang++" with
  | some clang_path =>
    match h.run ["clang++", "--version"] with
    | .completed _ stdout _ =>
      some { name := "Clang", command := "clang++",
             version := firstLineOrUnknown stdout, type := "clang",
             priority := 2, path := clang_path }
    | .exn _ =>
      some { name := "Clang", command := "clang++", version := "Unknown",
             type := "clang", priority := 2, path := clang_path }
  | none => none

/-- `CompilerDetector._detect_gcc` (Unix probe). -/
def detect_gcc (h : HostState) : Option Compiler :=
  match h.which "g++" with
  | some gcc_path =>
    match h.run ["g++", "--version"] with
    | .completed _ stdout _ =>
      some { name := "GCC", command := "g++",
             version := firstLineOrUnknown stdout, type := "gcc",
             priority := 2, path := gcc_path }
    | .exn _ =>
      some { name := "GCC", command := "g++", version := "Unknown",
             type := "gcc", priority := 2, path := gcc_path }
  | none => none

/-- `CompilerDetector._detect_clang_unix`. -/
def detect_clang_unix (h : HostState) : Option Compiler :=
  match h.which "clang++" with
  | some clang_path =>
    match h.run ["clang++", "--version"] with
    | .completed _ stdout _ =>
      some { name := "Clang", command := "clang++",
             version := firstLineOrUnknown stdout, type := "clang",
             priority := 1, path := clang_path }
    | .exn _ =>
      some { name := "Clang", command := "clang++", version := "Unknown",
             type := "clang", priority := 1, path := clang_path }
  | none => none

/-- `CompilerDetector._detect_intel_compiler`. -/
def detect_intel_compiler (h : HostState) : Option Compiler :=
  match h.which "icpc" with
  | some icc_path =>
    match h.run ["icpc", "--version"] with
    | .completed _ stdout _ =>
      some { name := "Intel C++ Compiler", command := "icpc",
             version := firstLineOrUnknown stdout, type := "intel",
             priority := 1, path := icc_path }
    | .exn _ =>
      some { name := "Intel C++ Compiler", command := "icpc",
             version := "Unknown", type := "intel",
             priority := 1, path := icc_path }
  | none => none

/-- `CompilerDetector._detect_windows_compilers`. -/
def detect_windows_compilers (h : HostState) : List Compiler :=
  detect_visual_studio h ++ (detect_mingw h).toList ++
    (detect_clang_windows h).toList

/-- `CompilerDetector._detect_unix_compilers`. -/
def detect_unix_compilers (h : HostState) : List Compiler :=
  (detect_gcc h).toList ++ (detect_clang_unix h).toList ++
    (detect_intel_compiler h).toList

/-- `CompilerDetector.detect_compilers`. -/
def detect_compilers (h : HostState) : List Compiler :=
  if h.system = "windows" then detect_windows_compilers h
  else detect_unix_compilers h

/-- The `pathlib` `/` operator as the script uses it, with the path
separator fixed to `/`. -/
def pjoin (a b : String) : String := a ++ "/" ++ b

/-- Environment the `CppBuilder` reads from its `CompilerDetector`:
the lowered `platform.system()` value and the script directory. -/
structure BuildEnv where
  system : String
  script_dir : String

/-- `self.build_dir` of the detector. -/
def build_dir_of (sd : String) : String := pjoin sd "build"

/-- `self.bin_dir` of the detector. -/
def bin_dir_of (sd : String) : String := pjoin (build_dir_of sd) "bin"

/-- `CppBuilder.__init__`: the declared list of seven source files. -/
def source_files : List String :=
  ["tools/font_compiler_main.cpp",
   "integration/rf_font_api.cpp",
   "integration/rf_blood_api.cpp",
   "integration/rf_integration.cpp",
   "src/core/rf_font.c",
   "src/core/rf_font_cache.cpp",
   "src/core/rf_character_map.cpp"]

/-- The `compile_cmd` list of `CppBuilder._build_with_msvc`. -/
def build_cmd_msvc (e : BuildEnv) : List String :=
  ["cl", "/EHsc", "/O2", "/DNDEBUG", "/W3",
   "/I" ++ pjoin e.script_dir "include",
   "/I" ++ pjoin e.script_dir "integration",
   "/Fe:" ++ pjoin (bin_dir_of e.script_dir) "font_compiler.exe",
   "tools/font_compiler_main.cpp"] ++
  (if e.system = "windows" then
    ["/link", "kernel32.lib", "user32.lib", "gdi32.lib", "opengl32.lib"]
  else [])

/-- The shell string `_build_with_msvc` executes: the optional `vcvars`
call chained in front of the space-joined compile command. -/
def msvc_full_cmd (e : BuildEnv) (c : Compiler) : String :=
  (match c.setup with
   | some s => "call \"" ++ s ++ "\" && "
   | none => "") ++ String.intercalate " " (build_cmd_msvc e)

/-- The `compile_cmd` list of `CppBuilder._build_with_gcc`. -/
def build_cmd_gcc (e : BuildEnv) (command : String) : List String :=
  [command, "-std=c++17", "-O2", "-DNDEBUG", "-Wall",
   "-I" ++ pjoin e.script_dir "include",
   "-I" ++ pjoin e.script_dir "integration",
   "-o", pjoin (bin_dir_of e.script_dir) "font_compiler",
   "tools/font_compiler_main.cpp"] ++
  (if e.system = "windows" then
    ["-lkernel32", "-luser32", "-lgdi32", "-lopengl32"]
  else if e.system = "linux" then ["-lm", "-lpthread"]
  else [])

/-- The `compile_cmd` list of `CppBuilder._build_with_clang`. -/
def build_cmd_clang (e : BuildEnv) (command : String) : List String :=
  [command, "-std=c++17", "-O2", "-DNDEBUG", "-Wall",
   "-I" ++ pjoin e.script_dir "include",
   "-I" ++ pjoin e.script_dir "integration",
   "-o", pjoin (bin_dir_of e.script_dir) "font_compiler",
   "tools/font_compiler_main.cpp"] ++
  (if e.system = "windows" then
    ["-lkernel32", "-luser32", "-lgdi32", "-lopengl32"]
  else if e.system = "linux" then ["-lm", "-lpthread"]
  else if e.system = "darwin" then
    ["-framework", "OpenGL", "-framework", "Cocoa"]
  else [])

/-- The `compile_cmd` list of `CppBuilder._build_with_intel` (the source
has no platform library branch for this family). -/
def build_cmd_intel (e : BuildEnv) (command : String) : List String :=
  [command, "-std=c++17", "-O2", "-DNDEBUG", "-Wall",
   "-I" ++ pjoin e.script_dir "include",
   "-I" ++ pjoin e.script_dir "integration",
   "-o", pjoin (bin_dir_of e.script_dir) "font_compiler",
   "tools/font_compiler_main.cpp"]

/-- One executed child process: `shell=True` runs a single command
string, the other builders execute an argument vector. -/
inductive Invocation where
  | shell (cmd : String)
  | argv (cmd : List String)
deriving DecidableEq

/-- Result of `CppBuilder._build_with_compiler`: the returned boolean,
the executed compile invocations and the printed lines. -/
structure BuildResult where
  success : Bool
  invocations : List Invocation
  output : List String
deriving DecidableEq

/-- `CppBuilder._build_with_compiler`: dispatch on the `type` field; the
oracle stands for `subprocess.run` on the compile command, and an
exception from it is caught by the surrounding `try` and turned into a
`False` return. -/
def build_with_compiler (e : BuildEnv) (oracle : Invocation → RunOutcome)
    (c : Compiler) : BuildResult :=
  if c.type = "msvc" then
    let inv := Invocation.shell (msvc_full_cmd e c)
    match oracle inv with
    | .completed rc _ stderr =>
      if rc = 0 then ⟨true, [inv], []⟩
      else ⟨false, [inv], ["[DEBUG] MSVC error: " ++ stderr]⟩
    | .exn msg => ⟨false, [inv], ["[ERROR] Build exception: " ++ msg]⟩
  else if c.type = "gcc" then
    let inv := Invocation.argv (build_cmd_gcc e c.command)
    match oracle inv with
    | .completed rc _ stderr =>
      if rc = 0 then ⟨true, [inv], []⟩
      else ⟨false, [inv], ["[DEBUG] GCC error: " ++ stderr]⟩
    | .exn msg => ⟨false, [inv], ["[ERROR] Build exception: " ++ msg]⟩
  else if c.type = "clang" then
    let inv := Invocation.argv (build_cmd_clang e c.command)
    match oracle inv with
    | .completed rc _ stderr =>
      if rc = 0 then ⟨true, [inv], []⟩
      else ⟨false, [inv], ["[DEBUG] Clang error: " ++ stderr]⟩
    | .exn msg => ⟨false, [inv], ["[ERROR] Build exception: " ++ msg]⟩
  else if c.type = "intel" then
    let inv := Invocation.argv (build_cmd_intel e c.command)
    match oracle inv with
    | .completed rc _ stderr =>
      if rc = 0 then ⟨true, [inv], []⟩
      else ⟨false, [inv], ["[DEBUG] Intel compiler error: " ++ stderr]⟩
    | .exn msg => ⟨false, [inv], ["[ERROR] Build exception: " ++ msg]⟩
  else ⟨false, [], ["[WARNING] Unknown compiler type: " ++ c.type]⟩

/-- Result of the orchestrator: success flag, the compilers attempted in
order, the executed invocations and the printed lines. -/
structure OrchestratorResult where
  success : Bool
  attempted : List Compiler
  invocations : List Invocation
  output : List String
deriving DecidableEq

/-- The `for compiler in compilers` loop of `build_with_best_compiler`:
try each compiler in order and stop at the first success. -/
def try_compilers (e : BuildEnv) (oracle : Invocation → RunOutcome) :
    List Compiler → OrchestratorResult
  | [] => ⟨false, [], [], ["[ERROR] All compilers failed!"]⟩
  | c :: rest =>
    let r := build_with_compiler e oracle c
    if r.success then
      ⟨true, [c], r.invocations,
       ("\n[INFO] Trying " ++ c.name ++ "...") :: r.output ++
         ["[OK] Successfully built with " ++ c.name ++ "!"]⟩
    else
      let r2 := try_compilers e oracle rest
      ⟨r2.success, c :: r2.attempted, r.invocations ++ r2.invocations,
       ("\n[INFO] Trying " ++ c.name ++ "...") :: r.output ++
         ["[WARNING] Failed to build with " ++ c.name] ++ r2.output⟩

/-- Python `compilers.sort(key=lambda x: x["priority"])`: a stable
ascending sort on the `priority` field. -/
def sort_by_priority (l : List Compiler) : List Compiler :=
  l.mergeSort (fun a b => a.priority ≤ b.priority)

/-- Install guidance printed when no compiler was detected. -/
def no_compiler_lines (system : String) : List String :=
  ["[ERROR] No C++ compilers found!",
   "Please install one of the following:"] ++
  (if system = "windows" then
    ["  - Visual Studio (https://visualstudio.microsoft.com)",
     "  - MinGW-w64 (https://www.mingw-w64.org)",
     "  - Clang for Windows (https://releases.llvm.org)"]
  else
    ["  - GCC (sudo apt-get install build-essential)",
     "  - Clang (sudo apt-get install clang)"])

/-- `CppBuilder.build_with_best_compiler`: detect, bail out with
guidance when nothing was found, otherwise sort by priority and run the
fallback loop. -/
def build_with_best_compiler (h : HostState) (sd : String)
    (oracle : Invocation → RunOutcome) : OrchestratorResult :=
  let compilers := detect_compilers h
  if compilers.isEmpty then
    ⟨false, [], [], no_compiler_lines h.system⟩
  else
    let sorted := sort_by_priority compilers
    let r := try_compilers ⟨h.system, sd⟩ oracle sorted
    ⟨r.success, r.attempted, r.invocations,
     (("[INFO] Found " ++ toString compilers.length ++ " C++ compiler(s):") ::
       sorted.enum.map (fun ic =>
         "  " ++ toString (ic.1 + 1) ++ ". " ++ ic.2.name ++ " v" ++
           ic.2.version)) ++
     r.output⟩

/-- Python `str.lower()`, character-wise. -/
def strLower (s : String) : String := String.mk (s.data.map Char.toLower)

/-- Parsed command line flags of `main`. -/
structure Args where
  verbose : Bool := false
  list : Bool := false
  force : Option String := none
  clean : Bool := false

/-- Result of `main`: its return value (the process exit code), every
printed line in order, and every compile invocation executed. -/
structure MainResult where
  exit : Int
  output : List String
  invocations : List Invocation
deriving DecidableEq

/-- The `"=" * 40` banner. -/
def eq_banner : String := "========================================"

/-- Lines printed by the `--clean` handling. -/
def clean_lines (h : HostState) (sd : String) (args : Args) : List String :=
  if args.clean && h.pathExists (pjoin sd "build") then
    ["[INFO] Cleaning build directory...", "[OK] Build directory cleaned"]
  else []

/-- The per-compiler line of the `--list` output: ordinal, name, version
and type, behind a two-space indent. -/
def list_line (i : Nat) (c : Compiler) : String :=
  "  " ++ toString (i + 1) ++ ". " ++ c.name ++ " v" ++ c.version ++
    " (" ++ c.type ++ ")"

/-- Header printed before any build work. -/
def header_lines (h : HostState) (sd : String) : List String :=
  ["Red Files C++ Font Compiler Builder", eq_banner,
   "System: " ++ h.system,
   "Build directory: " ++ pjoin sd "build", ""]

/-- Epilogue printed on build success. -/
def success_lines (sd : String) : List String :=
  ["\n" ++ eq_banner,
   "[OK] C++ font compiler built successfully!",
   "Location: " ++ pjoin (bin_dir_of sd) "font_compiler",
   "\nYou can now use:",
   "  python compile.py --input font.json --output font.ttf",
   "The script will automatically detect and use the C++ compiler"]

/-- Epilogue printed on build failure. -/
def fail_lines : List String :=
  ["\n[ERROR] Build failed!",
   "Check the error messages above for details."]

/-- The command line driver `main`.  `if args.force:` in the source is a
Python truthiness test, so a forced compiler given as the empty string
behaves exactly like no `--force` flag at all. -/
def mainRun (h : HostState) (sd : String) (oracle : Invocation → RunOutcome)
    (args : Args) : MainResult :=
  let cl := clean_lines h sd args
  if args.list then
    let compilers := detect_compilers h
    if compilers.isEmpty then
      ⟨0, cl ++ ["No C++ compilers found"], []⟩
    else
      ⟨0, cl ++ "Available C++ compilers:" ::
            compilers.enum.map (fun ic => list_line ic.1 ic.2), []⟩
  else
    let hd := header_lines h sd
    let forced := match args.force with
      | some f => if f = "" then none else some f
      | none => none
    match forced with
    | some f =>
      let compilers := detect_compilers h
      match compilers.find? (fun c => strLower c.type == strLower f) with
      | none =>
        ⟨1, cl ++ hd ++ ["[ERROR] Compiler \x27" ++ f ++ "\x27 not found"], []⟩
      | some c =>
        let r := build_with_compiler ⟨h.system, sd⟩ oracle c
        if r.success then
          ⟨0, cl ++ hd ++ ("[INFO] Using forced compiler: " ++ c.name) ::
                r.output ++ success_lines sd, r.invocations⟩
        else
          ⟨1, cl ++ hd ++ ("[INFO] Using forced compiler: " ++ c.name) ::
                r.output ++ fail_lines, r.invocations⟩
    | none =>
      let r := build_with_best_compiler h sd oracle
      if r.success then
        ⟨0, cl ++ hd ++ r.output ++ success_lines sd, r.invocations⟩
      else
        ⟨1, cl ++ hd ++ r.output ++ fail_lines, r.invocations⟩

/-- Example host: a Linux machine with only `g++` on the search path. -/
def hostLinux : HostState where
  system := "linux"
  which := fun c => if c = "g++" then some "/usr/bin/g++" else none
  run := fun _ => .completed 0 "g++ (Ubuntu 11.4.0) 11.4.0\nCopyright (C) 2021" ""
  pathExists := fun _ => false

/-- Example host: Windows with `cl` on the search path whose bare
invocation completes with exit code 1 (as `cl` without input does), and
no install path present. -/
def hostClFails : HostState where
  system := "windows"
  which := fun c => if c = "cl" then some "C:/tools/cl" else none
  run := fun _ => .completed 1 "" "usage: cl [ option... ] filename..."
  pathExists := fun _ => false

/-- Example host: Windows with `cl` on the search path, a version query
that raises, and the first Visual Studio install path present. -/
def hostClBoth : HostState where
  system := "windows"
  which := fun c => if c = "cl" then some "C:/tools/cl" else none
  run := fun _ => .exn "timeout"
  pathExists := fun p =>
    p == "C:\\Program Files\\Microsoft Visual Studio\\2022\\Community\\VC\\Auxiliary\\Build\\vcvars64.bat"

/-- Example host: nothing on the search path at all. -/
def hostEmpty : HostState where
  system := "linux"
  which := fun _ => none
  run := fun _ => .exn "no such file"
  pathExists := fun _ => false

/-- Example host: a Unix machine where `g++`, `clang++`, `icpc` and `cl`
all resolve but every version query raises. -/
def hostAllExn : HostState where
  system := "linux"
  which := fun _ => some "/usr/bin/tool"
  run := fun _ => .exn "timed out"
  pathExists := fun _ => false

/-- Oracle under which every compile invocation succeeds. -/
def oracleOk : Invocation → RunOutcome := fun _ => .completed 0 "" ""

/-- Oracle under which every compile invocation fails with exit 1. -/
def oracleFail : Invocation → RunOutcome := fun _ => .completed 1 "" "boom"

/-- The first entry of `vs_paths` (the 2022 Community `vcvars64.bat`). -/
def vsP1 : String :=
  "C:\\Program Files\\Microsoft Visual Studio\\2022\\Community\\VC\\Auxiliary\\Build\\vcvars64.bat"

/-- The descriptor `detect_compilers` produces on `hostLinux`. -/
def gccLinux : Compiler :=
  { name := "GCC", command := "g++", version := "g++ (Ubuntu 11.4.0) 11.4.0",
    type := "gcc", priority := 2, path := "/usr/bin/g++" }

/-- A compile command passes exactly the main tool file and none of the
six other declared source files. -/
def passes_only_main (cmd : List String) : Prop :=
  cmd.count "tools/font_compiler_main.cpp" = 1 ∧
  ∀ s ∈ source_files, s ≠ "tools/font_compiler_main.cpp" → s ∉ cmd

/-! Helper lemmas about string heads and last characters, used to keep
abstract path components apart from fixed tokens. -/

lemma data_head_append (a b : String) (c : Char) (h : a.data.head? = some c) :
    (a ++ b).data.head? = some c := by
  rw [String.data_append, List.head?_append, h]; rfl

lemma data_getLast_append (a b : String) (c : Char)
    (h : b.data.getLast? = some c) : (a ++ b).data.getLast? = some c := by
  rw [String.data_append, List.getLast?_append, h]; rfl

lemma ne_of_head_ne (ca cb : Char) {a b : String}
    (ha : a.data.head? = some ca) (hb : b.data.head? = some cb)
    (hne : ca ≠ cb) : a ≠ b := by
  intro e
  rw [e, hb] at ha
  exact hne (Option.some.inj ha).symm

lemma ne_of_getLast_ne (ca cb : Char) {a b : String}
    (ha : a.data.getLast? = some ca) (hb : b.data.getLast? = some cb)
    (hne : ca ≠ cb) : a ≠ b := by
  intro e
  rw [e, hb] at ha
  exact hne (Option.some.inj ha).symm

lemma not_mem_of_heads (s : String)
    (hh : s.data.head? = some 'i' ∨ s.data.head? = some 's')
    (l : List String)
    (hl : ∀ t ∈ l, t.data.head? ≠ some 'i' ∧ t.data.head? ≠ some 's') :
    s ∉ l := by
  intro hm
  rcases hh with hh|hh
  · exact (hl s hm).1 hh
  · exact (hl s hm).2 hh

lemma head_minusI (x : String) : ("-I" ++ x).data.head? = some '-' :=
  data_head_append "-I" x '-' (by decide)

lemma head_slashI (x : String) : ("/I" ++ x).data.head? = some '/' :=
  data_head_append "/I" x '/' (by decide)

lemma head_slashFe (x : String) : ("/Fe:" ++ x).data.head? = some '/' :=
  data_head_append "/Fe:" x '/' (by decide)

lemma getLast_out (a : String) :
    (pjoin a "font_compiler").data.getLast? = some 'r' :=
  data_getLast_append (a ++ "/") "font_compiler" 'r' (by decide)

lemma getLast_out_exe (a : String) :
    (pjoin a "font_compiler.exe").data.getLast? = some 'e' :=
  data_getLast_append (a ++ "/") "font_compiler.exe" 'e' (by decide)

/-- C5 (amended): on the Linux-like family the GCC-like and Clang-like
commands include the math and threading libraries, while the Intel-like
command appends no platform libraries at all: it is the same list for
every operating system family. -/
theorem linux_link_libraries_amended (sd cn : String) :
    "-lm" ∈ build_cmd_gcc ⟨"linux", sd⟩ cn ∧
    "-lpthread" ∈ build_cmd_gcc ⟨"linux", sd⟩ cn ∧
    "-lm" ∈ build_cmd_clang ⟨"linux", sd⟩ cn ∧
    "-lpthread" ∈ build_cmd_clang ⟨"linux", sd⟩ cn ∧
    (∀ sys sys' : String,
      build_cmd_intel ⟨sys, sd⟩ cn = build_cmd_intel ⟨sys', sd⟩ cn) := by
  refine ⟨?_, ?_, ?_, ?_, fun _ _ => rfl⟩ <;>
    simp [build_cmd_gcc, build_cmd_clang]

/-- C5 counterexample: the Intel-like compile command on the Linux-like
family contains neither the math nor the threading link library, while
the GCC-like command on the same host does. -/
theorem intel_no_linux_libs_counterexample :
    "-lm" ∉ build_cmd_intel ⟨"linux", "."⟩ "icpc" ∧
    "-lpthread" ∉ build_cmd_intel ⟨"linux", "."⟩ "icpc" ∧
    "-lm" ∈ build_cmd_gcc ⟨"linux", "."⟩ "g++" ∧
    "-lpthread" ∈ build_cmd_gcc ⟨"linux", "."⟩ "g++" := by
  decide

/-- C6: on the macOS-like family (`system = "darwin"`) the Clang-like
command is exactly the base command followed by the OpenGL and Cocoa
framework references, while the GCC-like command equals its base command
(nothing appended), and concretely carries no framework references and
no `-l` link libraries. -/
theorem darwin_framework_asymmetry (sd cn : String) :
    build_cmd_clang ⟨"darwin", sd⟩ cn =
      build_cmd_clang ⟨"", sd⟩ cn ++
        ["-framework", "OpenGL", "-framework", "Cocoa"] ∧
    build_cmd_gcc ⟨"darwin", sd⟩ cn = build_cmd_gcc ⟨"", sd⟩ cn ∧
    "-framework" ∉ build_cmd_gcc ⟨"darwin", "."⟩ "g++" ∧
    "OpenGL" ∉ build_cmd_gcc ⟨"darwin", "."⟩ "g++" ∧
    "Cocoa" ∉ build_cmd_gcc ⟨"darwin", "."⟩ "g++" ∧
    (∀ t ∈ build_cmd_gcc ⟨"darwin", "."⟩ "g++", t.data.take 2 ≠ ['-', 'l']) := by
  refine ⟨?_, ?_, by decide, by decide, by decide, by decide⟩
  · simp [build_cmd_clang]
  · simp [build_cmd_gcc]

/-- C2 (amended): for the GCC-like, Clang-like and Intel-like probes,
whenever the command resolves on the search path the probe yields a
descriptor, and an exception (failure or timeout) or an empty output on
the version query downgrades the version to `"Unknown"`.  For the
MSVC-like probe only an exception yields the `"Unknown"` search-path
descriptor: a version query that completes with a non-zero exit code
yields no search-path descriptor at all. -/
theorem probe_version_fallback (h : HostState) (p : String) :
    (h.which "g++" = some p → detect_gcc h ≠ none) ∧
    (h.which "clang++" = some p → detect_clang_unix h ≠ none) ∧
    (h.which "icpc" = some p → detect_intel_compiler h ≠ none) ∧
    (∀ msg, h.which "g++" = some p → h.run ["g++", "--version"] = .exn msg →
      detect_gcc h = some ⟨"GCC", "g++", "Unknown", "gcc", 2, p, none⟩) ∧
    (∀ rc err, h.which "g++" = some p →
      h.run ["g++", "--version"] = .completed rc "" err →
      detect_gcc h = some ⟨"GCC", "g++", "Unknown", "gcc", 2, p, none⟩) ∧
    (∀ msg, h.which "clang++" = some p →
      h.run ["clang++", "--version"] = .exn msg →
      detect_clang_unix h =
        some ⟨"Clang", "clang++", "Unknown", "clang", 1, p, none⟩) ∧
    (∀ msg, h.which "icpc" = some p → h.run ["icpc", "--version"] = .exn msg →
      detect_intel_compiler h =
        some ⟨"Intel C++ Compiler", "icpc", "Unknown", "intel", 1, p, none⟩) ∧
    (∀ q msg, h.which "gcc" = some q → h.which "g++" = some p →
      h.run ["g++", "--version"] = .exn msg →
      detect_mingw h = some ⟨"MinGW/GCC", "g++", "Unknown", "gcc", 2, p, none⟩) ∧
    (∀ msg, h.which "clang++" = some p →
      h.run ["clang++", "--version"] = .exn msg →
      detect_clang_windows h =
        some ⟨"Clang", "clang++", "Unknown", "clang", 2, p, none⟩) ∧
    (∀ msg, h.which "cl" = some p → h.run ["cl"] = .exn msg →
      (⟨"Visual Studio C++", "cl", "Unknown", "msvc", 1, p, none⟩ : Compiler)
        ∈ detect_visual_studio h) ∧
    (∀ rc out err, h.which "cl" = some p → h.run ["cl"] = .completed rc out err →
      rc ≠ 0 → vs_from_path h = []) := by
  refine ⟨?_, ?_, ?_, ?_, ?_, ?_, ?_, ?_, ?_, ?_, ?_⟩
  · intro hw
    cases hr : h.run ["g++", "--version"] <;> simp [detect_gcc, hw, hr]
  · intro hw
    cases hr : h.run ["clang++", "--version"] <;>
      simp [detect_clang_unix, hw, hr]
  · intro hw
    cases hr : h.run ["icpc", "--version"] <;>
      simp [detect_intel_compiler, hw, hr]
  · intro msg hw hr
    simp [detect_gcc, hw, hr]
  · intro rc err hw hr
    simp [detect_gcc, hw, hr, firstLineOrUnknown]
  · intro msg hw hr
    simp [detect_clang_unix, hw, hr]
  · intro msg hw hr
    simp [detect_intel_compiler, hw, hr]
  · intro q msg hwq hw hr
    simp [detect_mingw, hwq, hw, hr]
  · intro msg hw hr
    simp [detect_clang_windows, hw, hr]
  · intro msg hw hr
    simp [detect_visual_studio, vs_from_path, hw, hr]
  · intro rc out err hw hr hrc
    simp [vs_from_path, hw, hr, hrc]

/-- C2 witness: on a host where every probe command resolves and every
version query raises, the probes still yield descriptors with version
`"Unknown"`. -/
theorem probe_version_fallback_witness :
    detect_gcc hostAllExn =
      some ⟨"GCC", "g++", "Unknown", "gcc", 2, "/usr/bin/tool", none⟩ ∧
    detect_clang_unix hostAllExn =
      some ⟨"Clang", "clang++", "Unknown", "clang", 1, "/usr/bin/tool", none⟩ ∧
    detect_intel_compiler hostAllExn =
      some ⟨"Intel C++ Compiler", "icpc", "Unknown", "intel", 1,
            "/usr/bin/tool", none⟩ ∧
    (⟨"Visual Studio C++", "cl", "Unknown", "msvc", 1, "/usr/bin/tool", none⟩
      : Compiler) ∈ detect_visual_studio hostAllExn := by
  obtain ⟨-, -, -, h4, -, h6, h7, -, -, h10, -⟩ :=
    probe_version_fallback hostAllExn "/usr/bin/tool"
  exact ⟨h4 "timed out" rfl rfl, h6 "timed out" rfl rfl,
         h7 "timed out" rfl rfl, h10 "timed out" rfl rfl⟩

/-- C2 counterexample: `cl` resolves on the search path and its bare
invocation completes with exit code 1 (no exception); the MSVC-like
probe then records no descriptor at all, so the toolchain's presence is
masked, contradicting the claim that a failed version query still
yields a non-absent descriptor. -/
theorem cl_nonzero_exit_counterexample :
    hostClFails.which "cl" = some "C:/tools/cl" ∧
    hostClFails.run ["cl"] =
      RunOutcome.completed 1 "" "usage: cl [ option... ] filename..." ∧
    detect_visual_studio hostClFails = [] ∧
    detect_compilers hostClFails = [] := by
  refine ⟨rfl, rfl, by decide, by decide⟩

/-- C8: when some well known Visual Studio install path exists, the
probe records exactly one additional descriptor, for the first existing
path, with priority 1 and the setup script set; it is appended after
whatever the search-path probe found, so both descriptors can be present
simultaneously and undeduplicated (shown concretely on `hostClBoth`). -/
theorem vs_install_path_descriptor (h : HostState) (p : String)
    (hp : vs_paths.find? h.pathExists = some p) :
    vs_from_install h =
      [⟨"Visual Studio C++", "cl", "2022", "msvc", 1, p, some p⟩] ∧
    detect_visual_studio h =
      vs_from_path h ++
        [⟨"Visual Studio C++", "cl", "2022", "msvc", 1, p, some p⟩] ∧
    (∃ pre post, vs_paths = pre ++ p :: post ∧
      ∀ q ∈ pre, h.pathExists q = false) ∧
    (∀ h' : HostState, (∀ q ∈ vs_paths, h'.pathExists q = false) →
      vs_from_install h' = []) ∧
    detect_visual_studio hostClBoth =
      [⟨"Visual Studio C++", "cl", "Unknown", "msvc", 1, "C:/tools/cl", none⟩,
       ⟨"Visual Studio C++", "cl", "2022", "msvc", 1, vsP1, some vsP1⟩] := by
  have h1 : vs_from_install h =
      [⟨"Visual Studio C++", "cl", "2022", "msvc", 1, p, some p⟩] := by
    simp [vs_from_install, hp]
  refine ⟨h1, by simp [detect_visual_studio, h1], ?_, ?_, by decide⟩
  · obtain ⟨-, pre, post, heq, hall⟩ := List.find?_eq_some.mp hp
    exact ⟨pre, post, heq, fun q hq => by simpa using hall q hq⟩
  · intro h' hall
    have : vs_paths.find? h'.pathExists = none :=
      List.find?_eq_none.mpr (fun q hq => by simp [hall q hq])
    simp [vs_from_install, this]

/-- C8 witness: on `hostClBoth` the first install path exists, and the
install-path probe yields exactly its descriptor. -/
theorem vs_install_path_descriptor_witness :
    vs_from_install hostClBoth =
      [⟨"Visual Studio C++", "cl", "2022", "msvc", 1, vsP1, some vsP1⟩] :=
  (vs_install_path_descriptor hostClBoth vsP1 (by decide)).1

lemma src_ne_base_elems (e : BuildEnv) (s : String)
    (hh : s.data.head? = some 'i' ∨ s.data.head? = some 's')
    (hl : s.data.getLast? = some 'p' ∨ s.data.getLast? = some 'c') :
    (∀ x : String, s ≠ "-I" ++ x) ∧ (∀ x : String, s ≠ "/I" ++ x) ∧
    (∀ x : String, s ≠ "/Fe:" ++ x) ∧
    s ≠ pjoin (bin_dir_of e.script_dir) "font_compiler" ∧
    s ≠ pjoin (bin_dir_of e.script_dir) "font_compiler.exe" := by
  refine ⟨?_, ?_, ?_, ?_, ?_⟩
  · intro x he
    have hx := head_minusI x
    rw [← he] at hx
    rcases hh with hh|hh <;> rw [hx] at hh <;> exact absurd hh (by decide)
  · intro x he
    have hx := head_slashI x
    rw [← he] at hx
    rcases hh with hh|hh <;> rw [hx] at hh <;> exact absurd hh (by decide)
  · intro x he
    have hx := head_slashFe x
    rw [← he] at hx
    rcases hh with hh|hh <;> rw [hx] at hh <;> exact absurd hh (by decide)
  · intro he
    have hx := getLast_out (bin_dir_of e.script_dir)
    rw [← he] at hx
    rcases hl with h'|h' <;> rw [hx] at h' <;> exact absurd h' (by decide)
  · intro he
    have hx := getLast_out_exe (bin_dir_of e.script_dir)
    rw [← he] at hx
    rcases hl with h'|h' <;> rw [hx] at h' <;> exact absurd h' (by decide)

lemma src_not_in_cmds (e : BuildEnv) (cn : String)
    (hcn : cn = "g++" ∨ cn = "clang++" ∨ cn = "icpc")
    (s : String)
    (hh : s.data.head? = some 'i' ∨ s.data.head? = some 's')
    (hl : s.data.getLast? = some 'p' ∨ s.data.getLast? = some 'c')
    (hicpc : s ≠ "icpc") :
    s ∉ build_cmd_gcc e cn ∧ s ∉ build_cmd_clang e cn ∧
    s ∉ build_cmd_intel e cn ∧ s ∉ build_cmd_msvc e := by
  obtain ⟨hminusI, hslI, hslFe, hout, houtexe⟩ := src_ne_base_elems e s hh hl
  have hcn' : s ≠ cn := by
    rcases hcn with rfl|rfl|rfl
    · intro he; subst he; rcases hh with hh|hh <;> exact absurd hh (by decide)
    · intro he; subst he; rcases hh with hh|hh <;> exact absurd hh (by decide)
    · exact hicpc
  have hbase : s ∉ ([cn, "-std=c++17", "-O2", "-DNDEBUG", "-Wall",
      "-I" ++ pjoin e.script_dir "include",
      "-I" ++ pjoin e.script_dir "integration",
      "-o", pjoin (bin_dir_of e.script_dir) "font_compiler",
      "tools/font_compiler_main.cpp"] : List String) := by
    intro hm
    simp only [List.mem_cons, List.not_mem_nil, or_false] at hm
    rcases hm with h|h|h|h|h|h|h|h|h|h
    · exact hcn' h
    · subst h; rcases hh with hh|hh <;> exact absurd hh (by decide)
    · subst h; rcases hh with hh|hh <;> exact absurd hh (by decide)
    · subst h; rcases hh with hh|hh <;> exact absurd hh (by decide)
    · subst h; rcases hh with hh|hh <;> exact absurd hh (by decide)
    · exact hminusI _ h
    · exact hminusI _ h
    · subst h; rcases hh with hh|hh <;> exact absurd hh (by decide)
    · exact hout h
    · subst h; rcases hh with hh|hh <;> exact absurd hh (by decide)
  have hwin : s ∉ (["-lkernel32", "-luser32", "-lgdi32", "-lopengl32"] :
      List String) := not_mem_of_heads s hh _ (by decide)
  have hlin : s ∉ (["-lm", "-lpthread"] : List String) :=
    not_mem_of_heads s hh _ (by decide)
  have hdar : s ∉ (["-framework", "OpenGL", "-framework", "Cocoa"] :
      List String) := not_mem_of_heads s hh _ (by decide)
  have hmsvclibs : s ∉ (["/link", "kernel32.lib", "user32.lib", "gdi32.lib",
      "opengl32.lib"] : List String) := not_mem_of_heads s hh _ (by decide)
  have hmsvcbase : s ∉ (["cl", "/EHsc", "/O2", "/DNDEBUG", "/W3",
      "/I" ++ pjoin e.script_dir "include",
      "/I" ++ pjoin e.script_dir "integration",
      "/Fe:" ++ pjoin (bin_dir_of e.script_dir) "font_compiler.exe",
      "tools/font_compiler_main.cpp"] : List String) := by
    intro hm
    simp only [List.mem_cons, List.not_mem_nil, or_false] at hm
    rcases hm with h|h|h|h|h|h|h|h|h
    · subst h; rcases hh with hh|hh <;> exact absurd hh (by decide)
    · subst h; rcases hh with hh|hh <;> exact absurd hh (by decide)
    · subst h; rcases hh with hh|hh <;> exact absurd hh (by decide)
    · subst h; rcases hh with hh|hh <;> exact absurd hh (by decide)
    · subst h; rcases hh with hh|hh <;> exact absurd hh (by decide)
    · exact hslI _ h
    · exact hslI _ h
    · exact hslFe _ h
    · subst h; rcases hh with hh|hh <;> exact absurd hh (by decide)
  refine ⟨?_, ?_, ?_, ?_⟩
  · intro hm
    simp only [build_cmd_gcc] at hm
    rcases List.mem_append.mp hm with hm|hm
    · exact hbase hm
    · split at hm
      · exact hwin hm
      · split at hm
        · exact hlin hm
        · exact absurd hm (List.not_mem_nil s)
  · intro hm
    simp only [build_cmd_clang] at hm
    rcases List.mem_append.mp hm with hm|hm
    · exact hbase hm
    · split at hm
      · exact hwin hm
      · split at hm
        · exact hlin hm
        · split at hm
          · exact hdar hm
          · exact absurd hm (List.not_mem_nil s)
  · intro hm
    simp only [build_cmd_intel] at hm
    exact hbase hm
  · intro hm
    simp only [build_cmd_msvc] at hm
    rcases List.mem_append.mp hm with hm|hm
    · exact hmsvcbase hm
    · split at hm
      · exact hmsvclibs hm
      · exact absurd hm (List.not_mem_nil s)

lemma count_main_base (e : BuildEnv) (cn : String)
    (hcn : cn = "g++" ∨ cn = "clang++" ∨ cn = "icpc") :
    ([cn, "-std=c++17", "-O2", "-DNDEBUG", "-Wall",
      "-I" ++ pjoin e.script_dir "include",
      "-I" ++ pjoin e.script_dir "integration",
      "-o", pjoin (bin_dir_of e.script_dir) "font_compiler",
      "tools/font_compiler_main.cpp"] : List String).count
      "tools/font_compiler_main.cpp" = 1 := by
  have h1 : (cn == "tools/font_compiler_main.cpp") = false :=
    beq_eq_false_iff_ne.mpr (by rcases hcn with rfl|rfl|rfl <;> decide)
  have h2 : (("-I" ++ pjoin e.script_dir "include") ==
      "tools/font_compiler_main.cpp") = false :=
    beq_eq_false_iff_ne.mpr
      (ne_of_head_ne '-' 't' (head_minusI _) (by decide) (by decide))
  have h3 : (("-I" ++ pjoin e.script_dir "integration") ==
      "tools/font_compiler_main.cpp") = false :=
    beq_eq_false_iff_ne.mpr
      (ne_of_head_ne '-' 't' (head_minusI _) (by decide) (by decide))
  have h4 : ((pjoin (bin_dir_of e.script_dir) "font_compiler") ==
      "tools/font_compiler_main.cpp") = false :=
    beq_eq_false_iff_ne.mpr
      (ne_of_getLast_ne 'r' 'p' (getLast_out _) (by decide) (by decide))
  simp only [List.count_cons, List.count_nil, h1, h2, h3, h4]
  decide

lemma count_main_msvc_base (e : BuildEnv) :
    (["cl", "/EHsc", "/O2", "/DNDEBUG", "/W3",
      "/I" ++ pjoin e.script_dir "include",
      "/I" ++ pjoin e.script_dir "integration",
      "/Fe:" ++ pjoin (bin_dir_of e.script_dir) "font_compiler.exe",
      "tools/font_compiler_main.cpp"] : List String).count
      "tools/font_compiler_main.cpp" = 1 := by
  have h1 : (("/I" ++ pjoin e.script_dir "include") ==
      "tools/font_compiler_main.cpp") = false :=
    beq_eq_false_iff_ne.mpr
      (ne_of_head_ne '/' 't' (head_slashI _) (by decide) (by decide))
  have h2 : (("/I" ++ pjoin e.script_dir "integration") ==
      "tools/font_compiler_main.cpp") = false :=
    beq_eq_false_iff_ne.mpr
      (ne_of_head_ne '/' 't' (head_slashI _) (by decide) (by decide))
  have h3 : (("/Fe:" ++ pjoin (bin_dir_of e.script_dir) "font_compiler.exe") ==
      "tools/font_compiler_main.cpp") = false :=
    beq_eq_false_iff_ne.mpr
      (ne_of_head_ne '/' 't' (head_slashFe _) (by decide) (by decide))
  simp only [List.count_cons, List.count_nil, h1, h2, h3]
  decide

lemma count_main_gcc (e : BuildEnv) (cn : String)
    (hcn : cn = "g++" ∨ cn = "clang++" ∨ cn = "icpc") :
    (build_cmd_gcc e cn).count "tools/font_compiler_main.cpp" = 1 := by
  simp only [build_cmd_gcc, List.count_append]
  rw [count_main_base e cn hcn]
  split
  · decide
  · split
    · decide
    · decide

lemma count_main_clang (e : BuildEnv) (cn : String)
    (hcn : cn = "g++" ∨ cn = "clang++" ∨ cn = "icpc") :
    (build_cmd_clang e cn).count "tools/font_compiler_main.cpp" = 1 := by
  simp only [build_cmd_clang, List.count_append]
  rw [count_main_base e cn hcn]
  split
  · decide
  · split
    · decide
    · split
      · decide
      · decide

lemma count_main_intel (e : BuildEnv) (cn : String)
    (hcn : cn = "g++" ∨ cn = "clang++" ∨ cn = "icpc") :
    (build_cmd_intel e cn).count "tools/font_compiler_main.cpp" = 1 := by
  simp only [build_cmd_intel]
  exact count_main_base e cn hcn

lemma count_main_msvc (e : BuildEnv) :
    (build_cmd_msvc e).count "tools/font_compiler_main.cpp" = 1 := by
  simp only [build_cmd_msvc, List.count_append]
  rw [count_main_msvc_base e]
  split
  · decide
  · decide

/-- C3: for every toolchain family the constructed compile command
passes exactly one of the seven declared source files, namely
`tools/font_compiler_main.cpp`; the other six declared files never
appear in any constructed command. -/
theorem only_main_source_in_commands (e : BuildEnv) (cn : String)
    (hcn : cn = "g++" ∨ cn = "clang++" ∨ cn = "icpc") :
    source_files.length = 7 ∧
    passes_only_main (build_cmd_msvc e) ∧
    passes_only_main (build_cmd_gcc e cn) ∧
    passes_only_main (build_cmd_clang e cn) ∧
    passes_only_main (build_cmd_intel e cn) := by
  have key : ∀ s ∈ source_files, s ≠ "tools/font_compiler_main.cpp" →
      s ∉ build_cmd_gcc e cn ∧ s ∉ build_cmd_clang e cn ∧
      s ∉ build_cmd_intel e cn ∧ s ∉ build_cmd_msvc e := by
    intro s hs hne
    simp only [source_files, List.mem_cons, List.not_mem_nil, or_false] at hs
    rcases hs with rfl|rfl|rfl|rfl|rfl|rfl|rfl
    · exact absurd rfl hne
    · exact src_not_in_cmds e cn hcn _ (by decide) (by decide) (by decide)
    · exact src_not_in_cmds e cn hcn _ (by decide) (by decide) (by decide)
    · exact src_not_in_cmds e cn hcn _ (by decide) (by decide) (by decide)
    · exact src_not_in_cmds e cn hcn _ (by decide) (by decide) (by decide)
    · exact src_not_in_cmds e cn hcn _ (by decide) (by decide) (by decide)
    · exact src_not_in_cmds e cn hcn _ (by decide) (by decide) (by decide)
  exact ⟨rfl,
    ⟨count_main_msvc e, fun s hs hne => (key s hs hne).2.2.2⟩,
    ⟨count_main_gcc e cn hcn, fun s hs hne => (key s hs hne).1⟩,
    ⟨count_main_clang e cn hcn, fun s hs hne => (key s hs hne).2.1⟩,
    ⟨count_main_intel e cn hcn, fun s hs hne => (key s hs hne).2.2.1⟩⟩

/-- C3 witness: the property at a concrete environment and command. -/
theorem only_main_source_in_commands_witness :
    source_files.length = 7 ∧
    passes_only_main (build_cmd_msvc ⟨"linux", "."⟩) ∧
    passes_only_main (build_cmd_gcc ⟨"linux", "."⟩ "g++") ∧
    passes_only_main (build_cmd_clang ⟨"linux", "."⟩ "g++") ∧
    passes_only_main (build_cmd_intel ⟨"linux", "."⟩ "g++") :=
  only_main_source_in_commands ⟨"linux", "."⟩ "g++" (Or.inl rfl)

lemma detect_gcc_fields (h : HostState) (c : Compiler)
    (hc : detect_gcc h = some c) :
    c.type = "gcc" ∧ c.priority = 2 := by
  cases hw : h.which "g++" with
  | none => simp [detect_gcc, hw] at hc
  | some p =>
    cases hr : h.run ["g++", "--version"] with
    | exn m =>
      simp [detect_gcc, hw, hr] at hc
      subst hc; exact ⟨rfl, rfl⟩
    | completed rc out err =>
      simp [detect_gcc, hw, hr] at hc
      subst hc; exact ⟨rfl, rfl⟩

lemma detect_clang_unix_fields (h : HostState) (c : Compiler)
    (hc : detect_clang_unix h = some c) :
    c.type = "clang" ∧ c.priority = 1 := by
  cases hw : h.which "clang++" with
  | none => simp [detect_clang_unix, hw] at hc
  | some p =>
    cases hr : h.run ["clang++", "--version"] with
    | exn m =>
      simp [detect_clang_unix, hw, hr] at hc
      subst hc; exact ⟨rfl, rfl⟩
    | completed rc out err =>
      simp [detect_clang_unix, hw, hr] at hc
      subst hc; exact ⟨rfl, rfl⟩

lemma detect_intel_fields (h : HostState) (c : Compiler)
    (hc : detect_intel_compiler h = some c) :
    c.type = "intel" ∧ c.priority = 1 := by
  cases hw : h.which "icpc" with
  | none => simp [detect_intel_compiler, hw] at hc
  | some p =>
    cases hr : h.run ["icpc", "--version"] with
    | exn m =>
      simp [detect_intel_compiler, hw, hr] at hc
      subst hc; exact ⟨rfl, rfl⟩
    | completed rc out err =>
      simp [detect_intel_compiler, hw, hr] at hc
      subst hc; exact ⟨rfl, rfl⟩

lemma detect_mingw_fields (h : HostState) (c : Compiler)
    (hc : detect_mingw h = some c) :
    c.type = "gcc" ∧ c.priority = 2 := by
  cases hwg : h.which "gcc" with
  | none => simp [detect_mingw, hwg] at hc
  | some q =>
    cases hwx : h.which "g++" with
    | none => simp [detect_mingw, hwg, hwx] at hc
    | some p =>
      cases hr : h.run ["g++", "--version"] with
      | exn m =>
        simp [detect_mingw, hwg, hwx, hr] at hc
        subst hc; exact ⟨rfl, rfl⟩
      | completed rc out err =>
        simp [detect_mingw, hwg, hwx, hr] at hc
        subst hc; exact ⟨rfl, rfl⟩

lemma detect_clang_windows_fields (h : HostState) (c : Compiler)
    (hc : detect_clang_windows h = some c) :
    c.type = "clang" ∧ c.priority = 2 := by
  cases hw : h.which "clang++" with
  | none => simp [detect_clang_windows, hw] at hc
  | some p =>
    cases hr : h.run ["clang++", "--version"] with
    | exn m =>
      simp [detect_clang_windows, hw, hr] at hc
      subst hc; exact ⟨rfl, rfl⟩
    | completed rc out err =>
      simp [detect_clang_windows, hw, hr] at hc
      subst hc; exact ⟨rfl, rfl⟩

lemma vs_from_path_fields (h : HostState) (c : Compiler)
    (hc : c ∈ vs_from_path h) :
    c.type = "msvc" ∧ c.priority = 1 := by
  cases hw : h.which "cl" with
  | none => simp [vs_from_path, hw] at hc
  | some p =>
    cases hr : h.run ["cl"] with
    | exn m =>
      simp [vs_from_path, hw, hr] at hc
      subst hc; exact ⟨rfl, rfl⟩
    | completed rc out err =>
      by_cases hrc : rc = 0
      · simp [vs_from_path, hw, hr, hrc] at hc
        subst hc; exact ⟨rfl, rfl⟩
      · simp [vs_from_path, hw, hr, hrc] at hc

lemma vs_from_install_fields (h : HostState) (c : Compiler)
    (hc : c ∈ vs_from_install h) :
    c.type = "msvc" ∧ c.priority = 1 := by
  cases hp : vs_paths.find? h.pathExists with
  | none => simp [vs_from_install, hp] at hc
  | some p =>
    simp [vs_from_install, hp] at hc
    subst hc; exact ⟨rfl, rfl⟩

lemma detected_fields (h : HostState) (c : Compiler)
    (hc : c ∈ detect_compilers h) :
    (c.type = "msvc" ∧ c.priority = 1) ∨
    (c.type = "gcc" ∧ c.priority = 2) ∨
    (c.type = "clang" ∧ c.priority = 2 ∧ h.system = "windows") ∨
    (c.type = "clang" ∧ c.priority = 1 ∧ h.system ≠ "windows") ∨
    (c.type = "intel" ∧ c.priority = 1 ∧ h.system ≠ "windows") := by
  unfold detect_compilers at hc
  by_cases hsys : h.system = "windows"
  · rw [if_pos hsys] at hc
    unfold detect_windows_compilers detect_visual_studio at hc
    rcases List.mem_append.mp hc with hc | hc
    · rcases List.mem_append.mp hc with hc | hc
      · rcases List.mem_append.mp hc with hc | hc
        · exact Or.inl (vs_from_path_fields h c hc)
        · exact Or.inl (vs_from_install_fields h c hc)
      · rw [Option.mem_toList, Option.mem_def] at hc
        exact Or.inr (Or.inl (detect_mingw_fields h c hc))
    · rw [Option.mem_toList, Option.mem_def] at hc
      obtain ⟨h1, h2⟩ := detect_clang_windows_fields h c hc
      exact Or.inr (Or.inr (Or.inl ⟨h1, h2, hsys⟩))
  · rw [if_neg hsys] at hc
    unfold detect_unix_compilers at hc
    rcases List.mem_append.mp hc with hc | hc
    · rcases List.mem_append.mp hc with hc | hc
      · rw [Option.mem_toList, Option.mem_def] at hc
        exact Or.inr (Or.inl (detect_gcc_fields h c hc))
      · rw [Option.mem_toList, Option.mem_def] at hc
        obtain ⟨h1, h2⟩ := detect_clang_unix_fields h c hc
        exact Or.inr (Or.inr (Or.inr (Or.inl ⟨h1, h2, hsys⟩)))
    · rw [Option.mem_toList, Option.mem_def] at hc
      obtain ⟨h1, h2⟩ := detect_intel_fields h c hc
      exact Or.inr (Or.inr (Or.inr (Or.inr ⟨h1, h2, hsys⟩)))

lemma build_invocations_one (e : BuildEnv) (oracle : Invocation → RunOutcome)
    (c : Compiler)
    (ht : c.type = "msvc" ∨ c.type = "gcc" ∨ c.type = "clang" ∨
      c.type = "intel") :
    (build_with_compiler e oracle c).invocations.length = 1 := by
  rcases ht with ht|ht|ht|ht
  · cases ho : oracle (Invocation.shell (msvc_full_cmd e c)) <;>
      simp [build_with_compiler, ht, ho, apply_ite]
  · cases ho : oracle (Invocation.argv (build_cmd_gcc e c.command)) <;>
      simp [build_with_compiler, ht, ho, apply_ite]
  · cases ho : oracle (Invocation.argv (build_cmd_clang e c.command)) <;>
      simp [build_with_compiler, ht, ho, apply_ite]
  · cases ho : oracle (Invocation.argv (build_cmd_intel e c.command)) <;>
      simp [build_with_compiler, ht, ho, apply_ite]

/-- C9: every descriptor produced by detection has a `type` in the
closed set msvc, gcc, clang, intel and a `priority` in the set 1, 2; on
a non-Windows host a GCC descriptor always has priority 2 while Clang
and Intel descriptors always have priority 1; and for every detected
descriptor the dispatcher takes one of the four known branches, always
executing exactly one invocation — the unknown-compiler-type branch,
which executes none, is unreachable. -/
theorem detect_compilers_invariants (h : HostState) (c : Compiler)
    (hc : c ∈ detect_compilers h) :
    (c.type = "msvc" ∨ c.type = "gcc" ∨ c.type = "clang" ∨
      c.type = "intel") ∧
    (c.priority = 1 ∨ c.priority = 2) ∧
    (h.system ≠ "windows" →
      (c.type = "gcc" → c.priority = 2) ∧
      (c.type = "clang" → c.priority = 1) ∧
      (c.type = "intel" → c.priority = 1)) ∧
    (∀ (e : BuildEnv) (oracle : Invocation → RunOutcome),
      (build_with_compiler e oracle c).invocations.length = 1) := by
  have hfields := detected_fields h c hc
  have htype : c.type = "msvc" ∨ c.type = "gcc" ∨ c.type = "clang" ∨
      c.type = "intel" := by
    rcases hfields with ⟨h1, -⟩ | ⟨h1, -⟩ | ⟨h1, -⟩ | ⟨h1, -⟩ | ⟨h1, -⟩
    · exact Or.inl h1
    · exact Or.inr (Or.inl h1)
    · exact Or.inr (Or.inr (Or.inl h1))
    · exact Or.inr (Or.inr (Or.inl h1))
    · exact Or.inr (Or.inr (Or.inr h1))
  refine ⟨htype, ?_, ?_, fun e oracle => build_invocations_one e oracle c htype⟩
  · rcases hfields with ⟨-, h2⟩ | ⟨-, h2⟩ | ⟨-, h2, -⟩ | ⟨-, h2, -⟩ | ⟨-, h2, -⟩
    · exact Or.inl h2
    · exact Or.inr h2
    · exact Or.inr h2
    · exact Or.inl h2
    · exact Or.inl h2
  · intro hsys
    rcases hfields with ⟨h1, h2⟩ | ⟨h1, h2⟩ | ⟨h1, h2, h3⟩ | ⟨h1, h2, h3⟩ |
        ⟨h1, h2, h3⟩ <;>
      refine ⟨?_, ?_, ?_⟩ <;> intro ht <;> rw [h1] at ht <;>
      first
        | exact h2
        | exact absurd ht (by decide)
        | exact absurd h3 (fun h' => hsys h')

/-- C9 witness: the invariants at the concrete host `hostLinux` and its
detected GCC descriptor. -/
theorem detect_compilers_invariants_witness :
    (gccLinux.type = "msvc" ∨ gccLinux.type = "gcc" ∨
      gccLinux.type = "clang" ∨ gccLinux.type = "intel") ∧
    (gccLinux.priority = 1 ∨ gccLinux.priority = 2) ∧
    (hostLinux.system ≠ "windows" →
      (gccLinux.type = "gcc" → gccLinux.priority = 2) ∧
      (gccLinux.type = "clang" → gccLinux.priority = 1) ∧
      (gccLinux.type = "intel" → gccLinux.priority = 1)) ∧
    (∀ (e : BuildEnv) (oracle : Invocation → RunOutcome),
      (build_with_compiler e oracle gccLinux).invocations.length = 1) :=
  detect_compilers_invariants hostLinux gccLinux (by decide)

/-- C7: with `--list` the driver only performs detection: it executes no
compile invocation, returns 0 whether or not compilers were found, and
prints one line per descriptor in discovery order in the `list_line`
format (ordinal, name, version, type), or the no-compilers message when
the detected set is empty. -/
theorem list_flag_detection_only (h : HostState) (sd : String)
    (oracle : Invocation → RunOutcome) (args : Args)
    (hl : args.list = true) :
    (mainRun h sd oracle args).invocations = [] ∧
    (mainRun h sd oracle args).exit = 0 ∧
    (detect_compilers h = [] →
      (mainRun h sd oracle args).output =
        clean_lines h sd args ++ ["No C++ compilers found"]) ∧
    (detect_compilers h ≠ [] →
      (mainRun h sd oracle args).output =
        clean_lines h sd args ++ "Available C++ compilers:" ::
          (detect_compilers h).enum.map (fun ic => list_line ic.1 ic.2)) := by
  refine ⟨?_, ?_, ?_, ?_⟩
  · by_cases hdet : (detect_compilers h).isEmpty <;> simp [mainRun, hl, hdet]
  · by_cases hdet : (detect_compilers h).isEmpty <;> simp [mainRun, hl, hdet]
  · intro hdet
    simp [mainRun, hl, hdet]
  · intro hdet
    have hne : (detect_compilers h).isEmpty = false := by
      cases hdd : detect_compilers h
      · exact absurd hdd hdet
      · rfl
    simp [mainRun, hl, hne]

/-- C7 witness: the `--list` behaviour at the concrete host
`hostLinux`. -/
theorem list_flag_detection_only_witness :
    (mainRun hostLinux "." oracleOk ⟨false, true, none, false⟩).invocations
      = [] ∧
    (mainRun hostLinux "." oracleOk ⟨false, true, none, false⟩).exit = 0 ∧
    (detect_compilers hostLinux = [] →
      (mainRun hostLinux "." oracleOk ⟨false, true, none, false⟩).output =
        clean_lines hostLinux "." ⟨false, true, none, false⟩ ++
          ["No C++ compilers found"]) ∧
    (detect_compilers hostLinux ≠ [] →
      (mainRun hostLinux "." oracleOk ⟨false, true, none, false⟩).output =
        clean_lines hostLinux "." ⟨false, true, none, false⟩ ++
          "Available C++ compilers:" ::
            (detect_compilers hostLinux).enum.map
              (fun ic => list_line ic.1 ic.2)) :=
  list_flag_detection_only hostLinux "." oracleOk ⟨false, true, none, false⟩ rfl

/-- C4 (amended): if a non-empty forced kind matches, case
insensitively, no descriptor in the detected set, the driver executes no
compile invocation, prints the not-found error and returns 1.  (An empty
forced string is treated by the Python truthiness test as no forcing at
all, see the counterexample.) -/
theorem forced_unknown_not_found (h : HostState) (sd : String)
    (oracle : Invocation → RunOutcome) (args : Args) (f : String)
    (hf : args.force = some f) (hfne : f ≠ "") (hl : args.list = false)
    (hnone : ∀ c ∈ detect_compilers h, strLower c.type ≠ strLower f) :
    (mainRun h sd oracle args).exit = 1 ∧
    (mainRun h sd oracle args).invocations = [] ∧
    ("[ERROR] Compiler \x27" ++ f ++ "\x27 not found") ∈
      (mainRun h sd oracle args).output := by
  have hfind : (detect_compilers h).find?
      (fun c => strLower c.type == strLower f) = none :=
    List.find?_eq_none.mpr (fun c hc => by simpa using hnone c hc)
  refine ⟨?_, ?_, ?_⟩ <;> simp [mainRun, hl, hf, hfne, hfind]

/-- C4 witness: forcing `clang` on a host that only detects GCC. -/
theorem forced_unknown_not_found_witness :
    (mainRun hostLinux "." oracleOk
      ⟨false, false, some "clang", false⟩).exit = 1 ∧
    (mainRun hostLinux "." oracleOk
      ⟨false, false, some "clang", false⟩).invocations = [] ∧
    ("[ERROR] Compiler \x27" ++ "clang" ++ "\x27 not found") ∈
      (mainRun hostLinux "." oracleOk
        ⟨false, false, some "clang", false⟩).output :=
  forced_unknown_not_found hostLinux "." oracleOk
    ⟨false, false, some "clang", false⟩ "clang" rfl (by decide) rfl
    (by decide)

/-- C4 counterexample: with `--force ""` the forced kind matches no
descriptor, yet the driver does not report a missing compiler or exit
with 1: the Python truthiness test `if args.force:` treats the empty
string as no forcing, so the automatic build path runs, executes an
invocation and returns 0. -/
theorem force_empty_string_counterexample :
    (∀ c ∈ detect_compilers hostLinux, strLower c.type ≠ strLower "") ∧
    (mainRun hostLinux "." oracleOk ⟨false, false, some "", false⟩).exit
      = 0 ∧
    (mainRun hostLinux "." oracleOk
      ⟨false, false, some "", false⟩).invocations ≠ [] := by
  have hdet : detect_compilers hostLinux = [gccLinux] := by decide
  have hbb : build_with_best_compiler hostLinux "." oracleOk =
      ⟨true, [gccLinux],
       [Invocation.argv (build_cmd_gcc ⟨"linux", "."⟩ "g++")],
       ["[INFO] Found 1 C++ compiler(s):",
        "  1. GCC vg++ (Ubuntu 11.4.0) 11.4.0",
        "\n[INFO] Trying GCC...", "[OK] Successfully built with GCC!"]⟩ := by
    simp only [build_with_best_compiler, hdet, sort_by_priority]
    rw [List.mergeSort_singleton]
    decide
  refine ⟨by decide, ?_, ?_⟩
  · simp [mainRun, hbb]
  · simp [mainRun, hbb]

/-- C10: when a non-empty forced kind is given and detection finds no
compilers at all, the driver takes the forced-compiler-not-found path:
exit 1, zero invocations, the not-found error printed, and no printed
line is the platform installation guidance (every printed line starts
with a non-blank character while the guidance lines are indented); the
guidance is printed on the non-forced path with empty detection, shown
concretely on `hostEmpty`. -/
theorem forced_with_empty_detection (h : HostState) (sd : String)
    (oracle : Invocation → RunOutcome) (args : Args) (f : String)
    (hf : args.force = some f) (hfne : f ≠ "") (hl : args.list = false)
    (hempty : detect_compilers h = []) :
    (mainRun h sd oracle args).exit = 1 ∧
    (mainRun h sd oracle args).invocations = [] ∧
    ("[ERROR] Compiler \x27" ++ f ++ "\x27 not found") ∈
      (mainRun h sd oracle args).output ∧
    (∀ s ∈ (mainRun h sd oracle args).output, s.data.head? ≠ some ' ') ∧
    "  - GCC (sudo apt-get install build-essential)" ∉
      (mainRun h sd oracle args).output ∧
    "  - Clang (sudo apt-get install clang)" ∉
      (mainRun h sd oracle args).output ∧
    "  - Visual Studio (https://visualstudio.microsoft.com)" ∉
      (mainRun h sd oracle args).output ∧
    "  - MinGW-w64 (https://www.mingw-w64.org)" ∉
      (mainRun h sd oracle args).output ∧
    "  - Clang for Windows (https://releases.llvm.org)" ∉
      (mainRun h sd oracle args).output ∧
    "  - GCC (sudo apt-get install build-essential)" ∈
      (mainRun hostEmpty "." oracleOk ⟨false, false, none, false⟩).output := by
  have hfind : (detect_compilers h).find?
      (fun c => strLower c.type == strLower f) = none := by
    rw [hempty]; rfl
  have hout : (mainRun h sd oracle args).output =
      clean_lines h sd args ++ header_lines h sd ++
        ["[ERROR] Compiler \x27" ++ f ++ "\x27 not found"] := by
    simp [mainRun, hl, hf, hfne, hfind]
  have hall : ∀ s ∈ (mainRun h sd oracle args).output,
      s.data.head? ≠ some ' ' := by
    intro s hs
    rw [hout] at hs
    rcases List.mem_append.mp hs with hs | hs
    · rcases List.mem_append.mp hs with hs | hs
      · unfold clean_lines at hs
        split at hs
        · simp only [List.mem_cons, List.not_mem_nil, or_false] at hs
          rcases hs with rfl | rfl <;> decide
        · exact absurd hs (List.not_mem_nil s)
      · unfold header_lines at hs
        simp only [List.mem_cons, List.not_mem_nil, or_false] at hs
        rcases hs with rfl | rfl | rfl | rfl | rfl
        · decide
        · decide
        · rw [data_head_append "System: " h.system 'S' (by decide)]
          decide
        · rw [data_head_append "Build directory: " (pjoin sd "build") 'B'
            (by decide)]
          decide
        · decide
    · simp only [List.mem_cons, List.not_mem_nil, or_false] at hs
      subst hs
      rw [data_head_append ("[ERROR] Compiler \x27" ++ f) "\x27 not found" '['
        (data_head_append "[ERROR] Compiler \x27" f '[' (by decide))]
      decide
  refine ⟨?_, ?_, ?_, hall, fun hm => (hall _ hm) (by decide),
    fun hm => (hall _ hm) (by decide), fun hm => (hall _ hm) (by decide),
    fun hm => (hall _ hm) (by decide), fun hm => (hall _ hm) (by decide), ?_⟩
  · simp [mainRun, hl, hf, hfne, hfind]
  · simp [mainRun, hl, hf, hfne, hfind]
  · simp [mainRun, hl, hf, hfne, hfind]
  · have hde : detect_compilers hostEmpty = [] := by decide
    simp [mainRun, build_with_best_compiler, hde, no_compiler_lines,
      show hostEmpty.system = "linux" from rfl]

/-- C10 witness: forcing `clang` on a host with nothing detected. -/
theorem forced_with_empty_detection_witness :
    (mainRun hostEmpty "." oracleOk
      ⟨false, false, some "clang", false⟩).exit = 1 ∧
    (mainRun hostEmpty "." oracleOk
      ⟨false, false, some "clang", false⟩).invocations = [] ∧
    ("[ERROR] Compiler \x27" ++ "clang" ++ "\x27 not found") ∈
      (mainRun hostEmpty "." oracleOk
        ⟨false, false, some "clang", false⟩).output ∧
    (∀ s ∈ (mainRun hostEmpty "." oracleOk
        ⟨false, false, some "clang", false⟩).output,
      s.data.head? ≠ some ' ') ∧
    "  - GCC (sudo apt-get install build-essential)" ∉
      (mainRun hostEmpty "." oracleOk
        ⟨false, false, some "clang", false⟩).output ∧
    "  - Clang (sudo apt-get install clang)" ∉
      (mainRun hostEmpty "." oracleOk
        ⟨false, false, some "clang", false⟩).output ∧
    "  - Visual Studio (https://visualstudio.microsoft.com)" ∉
      (mainRun hostEmpty "." oracleOk
        ⟨false, false, some "clang", false⟩).output ∧
    "  - MinGW-w64 (https://www.mingw-w64.org)" ∉
      (mainRun hostEmpty "." oracleOk
        ⟨false, false, some "clang", false⟩).output ∧
    "  - Clang for Windows (https://releases.llvm.org)" ∉
      (mainRun hostEmpty "." oracleOk
        ⟨false, false, some "clang", false⟩).output ∧
    "  - GCC (sudo apt-get install build-essential)" ∈
      (mainRun hostEmpty "." oracleOk ⟨false, false, none, false⟩).output :=
  forced_with_empty_detection hostEmpty "." oracleOk
    ⟨false, false, some "clang", false⟩ "clang" rfl (by decide) rfl
    (by decide)

lemma leP_trans : ∀ (a b c : Compiler),
    decide (a.priority ≤ b.priority) = true →
    decide (b.priority ≤ c.priority) = true →
    decide (a.priority ≤ c.priority) = true := by
  intro a b c hab hbc
  simp only [decide_eq_true_eq] at *
  omega

lemma leP_total : ∀ (a b : Compiler),
    (decide (a.priority ≤ b.priority) ||
      decide (b.priority ≤ a.priority)) = true := by
  intro a b
  simp only [Bool.or_eq_true, decide_eq_true_eq]
  omega

lemma sortp_pairwise (l : List Compiler) :
    (sort_by_priority l).Pairwise (fun a b => a.priority ≤ b.priority) := by
  have h := @List.sorted_mergeSort Compiler
    (fun a b => decide (a.priority ≤ b.priority)) leP_trans leP_total l
  have h' : (sort_by_priority l).Pairwise
      (fun a b => decide (a.priority ≤ b.priority) = true) := h
  exact h'.imp (fun hab => by simpa using hab)

lemma sortp_filter (l : List Compiler) (p : Nat) :
    (sort_by_priority l).filter (fun c => c.priority == p) =
      l.filter (fun c => c.priority == p) := by
  have hsub : List.Sublist (l.filter (fun c => c.priority == p)) l :=
    List.filter_sublist l
  have hpw : (l.filter (fun c => c.priority == p)).Pairwise
      (fun a b => decide (a.priority ≤ b.priority) = true) := by
    apply List.pairwise_of_forall_mem_list
    intro a ha b hb
    have ha' := List.of_mem_filter ha
    have hb' := List.of_mem_filter hb
    simp only [beq_iff_eq] at ha' hb'
    simp [ha', hb']
  have hst := @List.sublist_mergeSort Compiler
    (fun a b => decide (a.priority ≤ b.priority)) l leP_trans leP_total
    (l.filter (fun c => c.priority == p)) hpw hsub
  have hid : (l.filter (fun c => c.priority == p)).filter
      (fun c => c.priority == p) = l.filter (fun c => c.priority == p) :=
    List.filter_eq_self.mpr (fun a ha => (List.mem_filter.mp ha).2)
  have h2 := hst.filter (fun c => c.priority == p)
  rw [hid] at h2
  have hlen : ((sort_by_priority l).filter
      (fun c => c.priority == p)).length =
      (l.filter (fun c => c.priority == p)).length :=
    ((List.mergeSort_perm l _).filter _).length_eq
  exact (h2.eq_of_length hlen.symm).symm

lemma try_attempted_prefix (e : BuildEnv) (oracle : Invocation → RunOutcome)
    (l : List Compiler) :
    ∃ rest, (try_compilers e oracle l).attempted ++ rest = l := by
  induction l with
  | nil => exact ⟨[], rfl⟩
  | cons c rest ih =>
    cases hb : (build_with_compiler e oracle c).success
    · obtain ⟨r2, hr2⟩ := ih
      refine ⟨r2, ?_⟩
      simp only [try_compilers, hb, Bool.false_eq_true, if_false,
        List.cons_append]
      rw [hr2]
    · exact ⟨rest, by simp [try_compilers, hb]⟩

lemma try_success_char (e : BuildEnv) (oracle : Invocation → RunOutcome)
    (l : List Compiler)
    (hs : (try_compilers e oracle l).success = true) :
    ∃ pre c, (try_compilers e oracle l).attempted = pre ++ [c] ∧
      (build_with_compiler e oracle c).success = true ∧
      ∀ x ∈ pre, (build_with_compiler e oracle x).success = false := by
  induction l with
  | nil => simp [try_compilers] at hs
  | cons c rest ih =>
    cases hb : (build_with_compiler e oracle c).success
    · have hs' : (try_compilers e oracle rest).success = true := by
        simpa [try_compilers, hb] using hs
      obtain ⟨pre, c', h1, h2, h3⟩ := ih hs'
      refine ⟨c :: pre, c', ?_, h2, ?_⟩
      · simp only [try_compilers, hb, Bool.false_eq_true, if_false,
          List.cons_append]
        rw [h1]
      · intro x hx
        rcases List.mem_cons.mp hx with rfl | hx
        · exact hb
        · exact h3 x hx
    · exact ⟨[], c, by simp [try_compilers, hb], hb, by simp⟩

lemma try_fail_char (e : BuildEnv) (oracle : Invocation → RunOutcome)
    (l : List Compiler)
    (hs : (try_compilers e oracle l).success = false) :
    (try_compilers e oracle l).attempted = l ∧
    ∀ x ∈ l, (build_with_compiler e oracle x).success = false := by
  induction l with
  | nil => exact ⟨rfl, by simp⟩
  | cons c rest ih =>
    cases hb : (build_with_compiler e oracle c).success
    · have hs' : (try_compilers e oracle rest).success = false := by
        simpa [try_compilers, hb] using hs
      obtain ⟨h1, h2⟩ := ih hs'
      refine ⟨?_, ?_⟩
      · simp only [try_compilers, hb, Bool.false_eq_true, if_false]
        rw [h1]
      · intro x hx
        rcases List.mem_cons.mp hx with rfl | hx
        · exact hb
        · exact h2 x hx
    · have : (try_compilers e oracle (c :: rest)).success = true := by
        simp [try_compilers, hb]
      rw [this] at hs
      cases hs

/-- C1: for every non-empty detected compiler list the orchestrator
attempts toolchains in non-decreasing priority order — the attempted
sequence is a prefix of the stable ascending sort of the catalog, whose
ties keep catalog-discovery order (the filter at each priority is
unchanged) — and stops at the first attempt that succeeds: on success
the attempted sequence is some failing prefix followed by the one
succeeding compiler, and the remaining sorted compilers are never
attempted; on failure every sorted compiler was attempted and failed. -/
theorem build_order_and_first_success (h : HostState) (sd : String)
    (oracle : Invocation → RunOutcome)
    (hne : detect_compilers h ≠ []) :
    (build_with_best_compiler h sd oracle).attempted.Pairwise
      (fun a b => a.priority ≤ b.priority) ∧
    (∃ rest, (build_with_best_compiler h sd oracle).attempted ++ rest =
      sort_by_priority (detect_compilers h)) ∧
    (∀ p : Nat, (sort_by_priority (detect_compilers h)).filter
        (fun c => c.priority == p) =
      (detect_compilers h).filter (fun c => c.priority == p)) ∧
    ((build_with_best_compiler h sd oracle).success = true →
      ∃ pre c, (build_with_best_compiler h sd oracle).attempted =
          pre ++ [c] ∧
        (build_with_compiler ⟨h.system, sd⟩ oracle c).success = true ∧
        ∀ x ∈ pre,
          (build_with_compiler ⟨h.system, sd⟩ oracle x).success = false) ∧
    ((build_with_best_compiler h sd oracle).success = false →
      (build_with_best_compiler h sd oracle).attempted =
        sort_by_priority (detect_compilers h) ∧
      ∀ x ∈ sort_by_priority (detect_compilers h),
        (build_with_compiler ⟨h.system, sd⟩ oracle x).success = false) := by
  have hie : (detect_compilers h).isEmpty = false := by
    cases hdd : detect_compilers h
    · exact absurd hdd hne
    · rfl
  have hbs : (build_with_best_compiler h sd oracle).success =
      (try_compilers ⟨h.system, sd⟩ oracle
        (sort_by_priority (detect_compilers h))).success := by
    simp [build_with_best_compiler, hie]
  have hba : (build_with_best_compiler h sd oracle).attempted =
      (try_compilers ⟨h.system, sd⟩ oracle
        (sort_by_priority (detect_compilers h))).attempted := by
    simp [build_with_best_compiler, hie]
  refine ⟨?_, ?_, fun p => sortp_filter _ p, ?_, ?_⟩
  · obtain ⟨rest, hr⟩ := try_attempted_prefix ⟨h.system, sd⟩ oracle
      (sort_by_priority (detect_compilers h))
    have hsub : List.Sublist
        (try_compilers ⟨h.system, sd⟩ oracle
          (sort_by_priority (detect_compilers h))).attempted
        (sort_by_priority (detect_compilers h)) := by
      have hx := List.sublist_append_left
        (try_compilers ⟨h.system, sd⟩ oracle
          (sort_by_priority (detect_compilers h))).attempted rest
      rw [hr] at hx
      exact hx
    rw [hba]
    exact List.Pairwise.sublist hsub (sortp_pairwise _)
  · obtain ⟨rest, hr⟩ := try_attempted_prefix ⟨h.system, sd⟩ oracle
      (sort_by_priority (detect_compilers h))
    exact ⟨rest, by rw [hba]; exact hr⟩
  · intro hs
    rw [hbs] at hs
    obtain ⟨pre, c, h1, h2, h3⟩ := try_success_char _ _ _ hs
    exact ⟨pre, c, by rw [hba]; exact h1, h2, h3⟩
  · intro hs
    rw [hbs] at hs
    obtain ⟨h1, h2⟩ := try_fail_char _ _ _ hs
    exact ⟨by rw [hba]; exact h1, h2⟩

/-- C1 witness: the ordering property at the concrete host
`hostLinux`. -/
theorem build_order_and_first_success_witness :
    (build_with_best_compiler hostLinux "." oracleOk).attempted.Pairwise
      (fun a b => a.priority ≤ b.priority) ∧
    (∃ rest,
      (build_with_best_compiler hostLinux "." oracleOk).attempted ++ rest =
        sort_by_priority (detect_compilers hostLinux)) ∧
    (∀ p : Nat, (sort_by_priority (detect_compilers hostLinux)).filter
        (fun c => c.priority == p) =
      (detect_compilers hostLinux).filter (fun c => c.priority == p)) ∧
    ((build_with_best_compiler hostLinux "." oracleOk).success = true →
      ∃ pre c,
        (build_with_best_compiler hostLinux "." oracleOk).attempted =
          pre ++ [c] ∧
        (build_with_compiler ⟨hostLinux.system, "."⟩ oracleOk c).success
          = true ∧
        ∀ x ∈ pre,
          (build_with_compiler ⟨hostLinux.system, "."⟩ oracleOk x).success
            = false) ∧
    ((build_with_best_compiler hostLinux "." oracleOk).success = false →
      (build_with_best_compiler hostLinux "." oracleOk).attempted =
        sort_by_priority (detect_compilers hostLinux) ∧
      ∀ x ∈ sort_by_priority (detect_compilers hostLinux),
        (build_with_compiler ⟨hostLinux.system, "."⟩ oracleOk x).success
          = false) :=
  build_order_and_first_success hostLinux "." oracleOk (by decide)

/-- C10 counterexample: with `--force ""` and an empty detected set the
driver does not take the forced-compiler-not-found path: the truthiness
test treats the empty forced string as no forcing, the automatic path
runs, and the platform installation guidance is printed. -/
theorem force_empty_string_guidance_counterexample :
    "  - GCC (sudo apt-get install build-essential)" ∈
      (mainRun hostEmpty "." oracleOk ⟨false, false, some "", false⟩).output ∧
    ("[ERROR] Compiler \x27" ++ "" ++ "\x27 not found") ∉
      (mainRun hostEmpty "." oracleOk ⟨false, false, some "", false⟩).output ∧
    (mainRun hostEmpty "." oracleOk
      ⟨false, false, some "", false⟩).exit = 1 := by
  refine ⟨?_, ?_, ?_⟩ <;> decide
